import Mathlib

/-!
Verification of the ApplyJobAI session-lifecycle core.

This file gives a shallow embedding, in Lean, of the parts of the
repository that the session-lifecycle specification talks about:

* `Testing.*`   — the `AgentService` of
  `src/api/services/agent_service_backupTesting.py`, the service whose
  method set matches the endpoints of `src/api/routers/cv_routes.py`
  (`process_files_async`, `handle_section_interaction`,
  `finalize_processing`, `create_dummy_completed_session`).
* `Backup.*`    — the `AgentService` of
  `src/api/services/agent_service_backup.py` (the variant with status
  guards and real suggestion mutation).
* `InteractiveApproval.*` — `src/core/interactive_approval.py`.
* `upload_and_process`, `validate_inputs` — `src/api/routers/cv_routes.py`
  and `src/utils/validators.py`.
* `research_company` and friends — `src/core/company_researcher.py`.
* `analyze_sections`, `extract_cv_sections` — `src/core/cv_analyzer.py`.

Modelling conventions: wall-clock instants (`datetime.now()`) are `Nat`
parameters threaded into each operation; outbound LLM calls are oracle
parameters (`Except String String` for a call that may raise, pure
functions for calls whose failure is not at issue); file-system writes
that may raise are `Option String` parameters (`some e` = the raised
message).  Python dicts keyed by strings are association lists that
preserve insertion order (`insertA` updates in place, appends when the
key is fresh), matching CPython dict semantics.
-/

namespace ApplyJobAI

/-- Association-list lookup, first match (Python `d[k]` / `k in d`). -/
def lookupA {α : Type} : List (String × α) → String → Option α
  | [], _ => none
  | (k, v) :: rest, key => if k = key then some v else lookupA rest key

/-- Association-list assignment (Python `d[k] = v`): updates in place,
appends at the end when the key is fresh, as CPython dicts do. -/
def insertA {α : Type} : List (String × α) → String → α → List (String × α)
  | [], key, val => [(key, val)]
  | (k, v) :: rest, key, val =>
      if k = key then (k, val) :: rest else (k, v) :: insertA rest key val

theorem lookupA_insertA_self {α : Type} (m : List (String × α)) (k : String) (v : α) :
    lookupA (insertA m k v) k = some v := by
  induction m with
  | nil => simp [insertA, lookupA]
  | cons p rest ih =>
      obtain ⟨k1, v1⟩ := p
      by_cases h : k1 = k
      · simp [insertA, h, lookupA]
      · simp [insertA, h, lookupA, ih]

theorem lookupA_insertA_ne {α : Type} (m : List (String × α)) (k k' : String) (v : α)
    (h : k ≠ k') : lookupA (insertA m k v) k' = lookupA m k' := by
  induction m with
  | nil => simp [insertA, lookupA, h]
  | cons p rest ih =>
      obtain ⟨k1, v1⟩ := p
      by_cases h1 : k1 = k
      · subst h1; simp [insertA, lookupA, h]
      · by_cases h2 : k1 = k'
        · simp [insertA, h1, lookupA, h2, Ne.symm h]
        · simp [insertA, h1, lookupA, h2, ih]

theorem lookupA_append {α : Type} (a b : List (String × α)) (k : String) :
    lookupA (a ++ b) k = ((lookupA a k).rec (lookupA b k) (fun v => some v)) := by
  induction a with
  | nil => simp [lookupA]
  | cons p rest ih =>
      obtain ⟨k1, v1⟩ := p
      by_cases h : k1 = k
      · simp [lookupA, h]
      · simp [lookupA, h, ih]

theorem insertA_of_lookupA_none {α : Type} (m : List (String × α)) (k : String) (v : α)
    (h : lookupA m k = none) : insertA m k v = m ++ [(k, v)] := by
  induction m with
  | nil => simp [insertA]
  | cons p rest ih =>
      obtain ⟨k1, v1⟩ := p
      by_cases h1 : k1 = k
      · simp [lookupA, h1] at h
      · simp [lookupA, h1] at h
        simp [insertA, h1, ih h]

/-- Session lifecycle states, the string values of the `status` key of a
session dict. -/
inductive Status where
  | initialized
  | processing
  | waiting_approval
  | finalizing
  | completed
  | error
deriving DecidableEq, Repr

def Status.toStr : Status → String
  | .initialized => "initialized"
  | .processing => "processing"
  | .waiting_approval => "waiting_approval"
  | .finalizing => "finalizing"
  | .completed => "completed"
  | .error => "error"

/-- The `results` dict a successful background pipeline stores on the
session (company research modelled as an opaque payload string). -/
structure Results where
  company_research : String
  cv_suggestions : List (String × String)
  cv_content : String
  job_profile : String
deriving DecidableEq, Repr

/-- The `suggestions` entry of a sample suggestion payload: a list of
strings in `finalize_processing`, a single string in
`create_dummy_completed_session`. -/
inductive SugText where
  | one (s : String)
  | many (l : List String)
deriving DecidableEq, Repr

/-- One value of the sample `cv_suggestions` dicts built by the Testing
service (`finalize_processing` omits `section_name` and
`original_content`; the dummy session includes them). -/
structure SugEntry where
  section_name : Option String
  title : String
  original_content : Option String
  content : String
  suggestions : SugText
  status : String
deriving DecidableEq, Repr

/-- The `company_research` sub-dict of the final
results of the Testing service (`research_date` is absent in the payload of the dummy session). -/
structure CompanyBlob where
  company_name : String
  research_date : Option Nat
  detailed_research : String
deriving DecidableEq, Repr

/-- Shape of `final_results` as built by `Testing.finalize_processing` /
`create_dummy_completed_session`. -/
structure FinalResults where
  session_id : String
  timestamp : Nat
  status : String
  company_research : CompanyBlob
  cv_suggestions : List (String × SugEntry)
  motivation_letter : String
  processing_time : Nat
deriving DecidableEq, Repr

/-- Shape of `final_results` as built by `Backup.finalize_processing`. -/
structure BackupFinal where
  session_id : String
  timestamp : Nat
  status : String
  company_research : String
  cv_suggestions : List (String × String)
  motivation_letter : String
  processing_time : Nat
deriving DecidableEq, Repr

inductive FinalPayload where
  | testing (fr : FinalResults)
  | backup (fr : BackupFinal)
deriving DecidableEq, Repr

/-- One session record of `active_sessions` (the `agent`,
`file_paths` and queue keys carry no lifecycle information and are
omitted; `results` is `none` for the initial empty dict). -/
structure Session where
  status : Status
  current_step : String
  progress : Nat
  results : Option Results
  created_at : Nat
  final_results : Option FinalPayload
  error_msg : Option String
deriving DecidableEq, Repr

/-- The process-wide `active_sessions` dict. -/
abbrev Store := List (String × Session)

def updateS (st : Store) (sid : String) (f : Session → Session) : Store :=
  match lookupA st sid with
  | none => st
  | some s => insertA st sid (f s)

theorem lookupA_updateS_self (st : Store) (sid : String) (f : Session → Session) :
    lookupA (updateS st sid f) sid = (lookupA st sid).map f := by
  unfold updateS
  cases h : lookupA st sid with
  | none => simp [h]
  | some s => simp [lookupA_insertA_self]

/-- Python truthiness test for an optional string (`if not x`). -/
def pyFalsy : Option String → Bool
  | none => true
  | some s => s == ""

def isPySpace (c : Char) : Bool :=
  c = ' ' || c = '\t' || c = '\n' || c = '\r' || c = '\x0b' || c = '\x0c'

/-- Python `str.strip()`: drop leading and trailing whitespace. -/
def pyStrip (s : String) : String :=
  String.mk (((s.data.dropWhile isPySpace).reverse.dropWhile isPySpace).reverse)

def splitLinesAux : List Char → List Char → List String
  | [], acc => [String.mk acc.reverse]
  | c :: rest, acc =>
      if c = '\n' then String.mk acc.reverse :: splitLinesAux rest []
      else splitLinesAux rest (c :: acc)

/-- Python `s.split(newline)`. -/
def splitLines (s : String) : List String := splitLinesAux s.data []

/-- Shape of the status dicts / `ProcessingStatus` responses. -/
structure StatusResp where
  session_id : String
  status : String
  current_step : String
  progress_percentage : Nat
  message : String
deriving DecidableEq, Repr

/-- Return value of `handle_section_interaction`: a success dict, an
error dict, or an uncaught exception. -/
inductive InteractResult where
  | ok (session_id sectionName action_taken result : String)
  | error (msg : String)
  | exn (msg : String)
deriving DecidableEq, Repr

def InteractResult.isError : InteractResult → Bool
  | .ok _ _ _ _ => false
  | .error _ => true
  | .exn _ => true

structure IntOut where
  resp : InteractResult
  store : Store
deriving DecidableEq, Repr

structure ProcOut where
  resp : StatusResp
  store : Store
  sched : Nat
  trace : List Status
deriving DecidableEq, Repr

deriving instance DecidableEq for Except

structure TFinOut where
  result : Except String FinalResults
  store : Store
  trace : List Status
deriving DecidableEq, Repr

structure BFinOut where
  result : Except String BackupFinal
  store : Store
  trace : List Status
deriving DecidableEq, Repr

def exceptIsError {ε α : Type} : Except ε α → Bool
  | .ok _ => false
  | .error _ => true

/-- Embedding of `AgentService.create_session` of `agent_service_backupTesting.py`
(identical in all three service variants). -/
def Testing.create_session (sid : String) (now : Nat) (st : Store) : StatusResp × Store :=
  ({ session_id := sid, status := "initialized", current_step := "waiting_for_input",
     progress_percentage := 0, message := "Session created successfully" },
   insertA st sid
     { status := .initialized, current_step := "waiting_for_input", progress := 0,
       results := none, created_at := now, final_results := none, error_msg := none })

/-- Embedding of `AgentService.process_files_async` of
`agent_service_backupTesting.py`.  `fileFail = some e` models an
exception raised while saving the uploaded files or initializing the
agent (the `except` branch); `sched` counts background processing
threads started by this call. -/
def Testing.process_files_async (sid : String) (now : Nat) (fileFail : Option String)
    (st : Store) : ProcOut :=
  let fresh := (lookupA st sid).isNone
  let st0 := if fresh then (Testing.create_session sid now st).2 else st
  let st1 := updateS st0 sid fun s =>
    { s with status := .processing, current_step := "saving_files", progress := 10 }
  let pre : List Status := if fresh then [.initialized, .processing] else [.processing]
  match fileFail with
  | some e =>
      { resp := { session_id := sid, status := "error", current_step := "file_processing_failed",
                  progress_percentage := 0, message := "Failed to process files: " ++ e },
        store := updateS st1 sid fun s => { s with status := .error, error_msg := some e },
        sched := 0,
        trace := pre ++ [.error] }
  | none =>
      { resp := { session_id := sid, status := "processing", current_step := "processing_files",
                  progress_percentage := 30, message := "Files uploaded and processing started" },
        store := updateS st1 sid fun s =>
          { s with current_step := "initializing_agent", progress := 20 },
        sched := 1,
        trace := pre }

/-- Embedding of `AgentService._process_in_background` of
`agent_service_backupTesting.py`: parse, research and analyze collapsed
into one oracle outcome (`.ok r` = all stages succeeded with results
`r`, `.error e` = some stage raised `e`).  The intermediate
`current_step`/`progress` updates never touch `status`. -/
def Testing.process_in_background (sid : String) (outcome : Except String Results)
    (st : Store) : Store × List Status :=
  match lookupA st sid with
  | none => (st, [])
  | some _ =>
      match outcome with
      | .ok r =>
          (updateS st sid fun s =>
            { s with status := .waiting_approval, current_step := "cv_section_approval",
                     progress := 80, results := some r },
           [.waiting_approval])
      | .error e =>
          (updateS st sid fun s => { s with status := .error, error_msg := some e },
           [.error])

/-- Embedding of `AgentService.get_session_status` (identical in all variants): a
pure read. -/
def Testing.get_session_status (sid : String) (st : Store) : Option StatusResp :=
  match lookupA st sid with
  | none => none
  | some s =>
      some { session_id := sid, status := s.status.toStr, current_step := s.current_step,
             progress_percentage := s.progress, message := "Processing..." }

/-- Embedding of `AgentService.handle_section_interaction` of
`agent_service_backupTesting.py`: builds confirmation strings only;
never reads `cv_suggestions`, never writes any session field. -/
def Testing.handle_section_interaction (sid sectionName action : String)
    (modificationText question : Option String) (st : Store) : IntOut :=
  match lookupA st sid with
  | none => { resp := .error "Session not found", store := st }
  | some s =>
      if s.status ≠ .waiting_approval then
        { resp := .error "Session not ready for interactions", store := st }
      else if action = "approve" then
        { resp := .ok sid sectionName action ("Section \x27" ++ sectionName ++ "\x27 approved"),
          store := st }
      else if action = "modify" then
        if pyFalsy modificationText then
          { resp := .error "Modification text required for \x27modify\x27 action", store := st }
        else
          { resp := .ok sid sectionName action
              ("Section \x27" ++ sectionName ++ "\x27 modified with: " ++ modificationText.getD ""),
            store := st }
      else if action = "ask" then
        if pyFalsy question then
          { resp := .error "Question required for \x27ask\x27 action", store := st }
        else
          { resp := .ok sid sectionName action
              ("Question about \x27" ++ sectionName ++ "\x27: " ++ question.getD "" ++
               ". Answer: This is a sample response."),
            store := st }
      else if action = "skip" then
        { resp := .ok sid sectionName action ("Section \x27" ++ sectionName ++ "\x27 skipped"),
          store := st }
      else
        { resp := .error ("Invalid action: " ++ action), store := st }

/-- The sample motivation letter template of
`Testing.finalize_processing` (the f-string at lines 279-293, with the
session id interpolated). -/
def sample_motivation_letter (sid : String) : String :=
  "Dear Hiring Manager,\n\n    I am writing to express my strong interest in the Product Manager position at your company. \n\n    Based on my analysis of the job requirements and my professional background, I believe I would be an excellent fit for this role. My experience in digital transformation and agile methodologies aligns perfectly with your needs.\n\n    I am excited about the opportunity to contribute to your team\x27s success and would welcome the chance to discuss how my skills can benefit your organization.\n\n    Thank you for your consideration.\n\n    Sincerely,\n    [Your Name]\n\n    Generated for session: " ++ sid ++ "\n    "

/-- The sample `cv_suggestions` dict of `Testing.finalize_processing`. -/
def sample_cv_suggestions : List (String × SugEntry) :=
  [("Professional Profile",
    { section_name := none, title := "Professional Profile", original_content := none,
      content := "Updated professional profile with relevant keywords",
      suggestions := .many ["Add relevant keywords", "Quantify achievements"],
      status := "enhanced" }),
   ("Experience",
    { section_name := none, title := "Experience", original_content := none,
      content := "Enhanced experience section highlighting relevant achievements",
      suggestions := .many ["Use action verbs", "Include metrics", "Show career progression"],
      status := "enhanced" }),
   ("Skills",
    { section_name := none, title := "Skills", original_content := none,
      content := "Optimized skills section for the target role",
      suggestions := .many ["Match job requirements", "Include technical skills", "Add certifications"],
      status := "enhanced" }),
   ("Education",
    { section_name := none, title := "Education", original_content := none,
      content := "Formatted education section appropriately",
      suggestions := .many ["Include relevant coursework", "Add certifications", "Highlight honors"],
      status := "enhanced" })]

/-- The `final_results` dict `Testing.finalize_processing` assembles at
wall-clock instant `now` for a session created at `created`. -/
def Testing.make_final_results (sid : String) (now created : Nat) : FinalResults :=
  { session_id := sid, timestamp := now, status := "completed",
    company_research :=
      { company_name := "Sample Company", research_date := some now,
        detailed_research := "Sample company research data" },
    cv_suggestions := sample_cv_suggestions,
    motivation_letter := sample_motivation_letter sid,
    processing_time := now - created }

/-- Embedding of `AgentService.finalize_processing` of
`agent_service_backupTesting.py`.  Note: no `status ==
"waiting_approval"` precondition — only existence of the session is
checked.  `persistFail = some e` models an exception raised while
creating directories or writing the two artifact files. -/
def Testing.finalize_processing (sid : String) (now : Nat) (persistFail : Option String)
    (st : Store) : TFinOut :=
  match lookupA st sid with
  | none => { result := .error "Session not found", store := st, trace := [] }
  | some s =>
      let st1 := updateS st sid fun x =>
        { x with status := .finalizing, current_step := "generating_motivation_letter",
                 progress := 90 }
      match persistFail with
      | some e =>
          { result := .error ("Finalization failed: " ++ e),
            store := updateS st1 sid fun x => { x with status := .error, error_msg := some e },
            trace := [.finalizing, .error] }
      | none =>
          let fr := Testing.make_final_results sid now s.created_at
          { result := .ok fr,
            store := updateS st1 sid fun x =>
              { x with status := .completed, progress := 100,
                       final_results := some (.testing fr) },
            trace := [.finalizing, .completed] }

/-- The mock letter of `create_dummy_completed_session`. -/
def dummy_motivation_letter (sid : String) : String :=
  "Dear Hiring Manager,\n\n    I am writing to express my strong interest in the Product Manager position at your company.\n\n    Based on my analysis of the job requirements and my professional background, I believe I would be an excellent fit for this role. My experience in digital transformation and agile methodologies aligns perfectly with your needs.\n\n    I am excited about the opportunity to contribute to your team\x27s success and would welcome the chance to discuss how my skills can benefit your organization.\n\n    Thank you for your consideration.\n\n    Sincerely,\n    [Your Name]\n\n    Generated for MOCK session: " ++ sid ++ "\n    "

/-- The mock `final_results` of `create_dummy_completed_session` (its
`processing_time` of 0.1 seconds is modelled as 0 whole time units; its
`company_research` has no `research_date`). -/
def dummy_final_results (sid : String) (now : Nat) : FinalResults :=
  { session_id := sid, timestamp := now, status := "completed",
    company_research :=
      { company_name := "Test Company", research_date := none,
        detailed_research := "Mock company research data for testing" },
    cv_suggestions :=
      [("Professional Profile",
        { section_name := some "Professional Profile", title := "Professional Profile",
          original_content := some "Original professional profile content from CV",
          content := "Mock updated professional profile with relevant keywords",
          suggestions := .one "Add relevant keywords and quantify achievements",
          status := "enhanced" }),
       ("Experience",
        { section_name := some "Experience", title := "Experience",
          original_content := some "Original experience section content from CV",
          content := "Mock enhanced experience section highlighting relevant achievements",
          suggestions := .one "Use action verbs, include metrics, and show career progression",
          status := "enhanced" }),
       ("Skills",
        { section_name := some "Skills", title := "Skills",
          original_content := some "Original skills section content from CV",
          content := "Mock optimized skills section for the target role",
          suggestions := .one "Match job requirements, include technical skills, and add certifications",
          status := "enhanced" }),
       ("Education",
        { section_name := some "Education", title := "Education",
          original_content := some "Original education section content from CV",
          content := "Mock formatted education section appropriately",
          suggestions := .one "Include relevant coursework, add certifications, and highlight honors",
          status := "enhanced" })],
    motivation_letter := dummy_motivation_letter sid,
    processing_time := 0 }

/-- Embedding of `AgentService.create_dummy_completed_session` of
`agent_service_backupTesting.py`, reached through the
`POST /create-dummy-session` route: assigns a fresh `completed` session
record unconditionally, overwriting whatever was stored under `sid`. -/
def Testing.create_dummy_completed_session (sid : String) (now : Nat)
    (st : Store) : Store × List Status :=
  (insertA st sid
     { status := .completed, current_step := "completed", progress := 100,
       results := none, created_at := now,
       final_results := some (.testing (dummy_final_results sid now)), error_msg := none },
   [.completed])

/-- Embedding of `InteractiveApproval._modify_suggestions` of
`src/core/interactive_approval.py`: the LLM call is wrapped in
`try/except`; on failure the function RETURNS the error message as the
new suggestion text instead of raising. -/
def InteractiveApproval.modify_suggestions (llmOutcome : Except String String) : String :=
  match llmOutcome with
  | .ok t => t
  | .error e => "Error generating modifications: " ++ e ++ ". Please try again."

/-- Embedding of `InteractiveApproval._answer_question`: same catch-and-return shape. -/
def InteractiveApproval.answer_question (llmOutcome : Except String String) : String :=
  match llmOutcome with
  | .ok t => t
  | .error e => "Error answering question: " ++ e ++ ". Please try asking again."

/-- Embedding of `AgentService.handle_section_interaction` of
`agent_service_backup.py`: checks the section key against
`session["results"]["cv_suggestions"]`, and `modify` stores the string
returned by `InteractiveApproval._modify_suggestions` back into that
dict.  `llmOutcome` is the single outbound LLM call a `modify`/`ask`
performs. -/
def Backup.handle_section_interaction (sid sectionName action : String)
    (modificationText question : Option String) (llmOutcome : Except String String)
    (st : Store) : IntOut :=
  match lookupA st sid with
  | none => { resp := .error "Session not found", store := st }
  | some s =>
      if s.status ≠ .waiting_approval then
        { resp := .error "Session not ready for interactions", store := st }
      else
        match s.results with
        | none => { resp := .exn "KeyError: cv_suggestions", store := st }
        | some r =>
            match lookupA r.cv_suggestions sectionName with
            | none =>
                { resp := .error ("Section \x27" ++ sectionName ++ "\x27 not found"), store := st }
            | some _ =>
                if action = "approve" then
                  { resp := .ok sid sectionName action
                      ("Section \x27" ++ sectionName ++ "\x27 approved"),
                    store := st }
                else if action = "modify" then
                  if pyFalsy modificationText then
                    { resp := .error "Modification text required for \x27modify\x27 action",
                      store := st }
                  else
                    let modified := InteractiveApproval.modify_suggestions llmOutcome
                    let r2 : Results :=
                      { r with cv_suggestions := insertA r.cv_suggestions sectionName modified }
                    { resp := .ok sid sectionName action modified,
                      store := updateS st sid fun x => { x with results := some r2 } }
                else if action = "ask" then
                  if pyFalsy question then
                    { resp := .error "Question required for \x27ask\x27 action", store := st }
                  else
                    { resp := .ok sid sectionName action
                        (InteractiveApproval.answer_question llmOutcome),
                      store := st }
                else if action = "skip" then
                  { resp := .ok sid sectionName action
                      ("Section \x27" ++ sectionName ++ "\x27 skipped"),
                    store := st }
                else
                  { resp := .error ("Invalid action: " ++ action), store := st }

/-- Embedding of `AgentService.finalize_processing` of `agent_service_backup.py`:
DOES check `status == "waiting_approval"` and raises `ValueError`
otherwise, without mutating the session.  `letterOutcome` is the
`generate_letter` LLM call; `saveFail` models an exception in
`agent._save_results`. -/
def Backup.finalize_processing (sid : String) (now : Nat)
    (letterOutcome : Except String String) (saveFail : Option String)
    (st : Store) : BFinOut :=
  match lookupA st sid with
  | none => { result := .error "Session not found", store := st, trace := [] }
  | some s =>
      if s.status ≠ .waiting_approval then
        { result := .error "Session not ready for finalization", store := st, trace := [] }
      else
        let st1 := updateS st sid fun x =>
          { x with status := .finalizing, current_step := "generating_motivation_letter",
                   progress := 90 }
        match s.results with
        | none =>
            { result := .error "KeyError: job_profile",
              store := updateS st1 sid fun x =>
                { x with status := .error, error_msg := some "KeyError: job_profile" },
              trace := [.finalizing, .error] }
        | some r =>
            match letterOutcome with
            | .error e =>
                { result := .error e,
                  store := updateS st1 sid fun x =>
                    { x with status := .error, error_msg := some e },
                  trace := [.finalizing, .error] }
            | .ok letter =>
                match saveFail with
                | some e =>
                    { result := .error e,
                      store := updateS st1 sid fun x =>
                        { x with status := .error, error_msg := some e },
                      trace := [.finalizing, .error] }
                | none =>
                    let fr : BackupFinal :=
                      { session_id := sid, timestamp := now, status := "completed",
                        company_research := r.company_research,
                        cv_suggestions := r.cv_suggestions,
                        motivation_letter := letter,
                        processing_time := now - s.created_at }
                    { result := .ok fr,
                      store := updateS st1 sid fun x =>
                        { x with status := .completed, progress := 100,
                                 final_results := some (.backup fr) },
                      trace := [.finalizing, .completed] }

/-- One client- or worker-initiated operation against a single session
id, as reachable through the routes of `cv_routes.py` bound to the
Testing service.  `pipeline` is the asynchronous completion of the
background thread scheduled by `startProcessing`. -/
inductive Op where
  | create (now : Nat)
  | startProcessing (now : Nat) (fileFail : Option String)
  | pipeline (outcome : Except String Results)
  | interact (sectionName action : String) (modificationText question : Option String)
  | finalize (now : Nat) (persistFail : Option String)
  | getStatus
  | dummy (now : Nat)

def Op.isDummy : Op → Bool
  | .dummy _ => true
  | _ => false

/-- Effect of one operation on the store, together with the sequence of
values assigned to the status field of the session during the operation. -/
def execOp (sid : String) (st : Store) : Op → Store × List Status
  | .create now => ((Testing.create_session sid now st).2, [.initialized])
  | .startProcessing now ff =>
      let o := Testing.process_files_async sid now ff st
      (o.store, o.trace)
  | .pipeline outcome => Testing.process_in_background sid outcome st
  | .interact sectionName action mt q =>
      ((Testing.handle_section_interaction sid sectionName action mt q st).store, [])
  | .finalize now pf =>
      let o := Testing.finalize_processing sid now pf st
      (o.store, o.trace)
  | .getStatus => (st, [])
  | .dummy now => Testing.create_dummy_completed_session sid now st

def execOps (sid : String) : List Op → Store → Store × List Status
  | [], st => (st, [])
  | op :: rest, st =>
      let o1 := execOp sid st op
      let o2 := execOps sid rest o1.1
      (o2.1, o1.2 ++ o2.2)

/-- All `status` values assigned to session `sid` while running `ops`
from an empty store, in order. -/
def statusTrace (sid : String) (ops : List Op) : List Status := (execOps sid ops []).2

/-- The edges of the state machine of spec §4.1: the monotone path plus
`error` from any non-terminal state. -/
def specEdge : Status → Status → Bool
  | .initialized, .processing => true
  | .processing, .waiting_approval => true
  | .waiting_approval, .finalizing => true
  | .finalizing, .completed => true
  | .completed, _ => false
  | .error, _ => false
  | _, .error => true
  | _, _ => false

def specAllowed (s t : Status) : Bool := s == t || specEdge s t

def specChain : Status → List Status → Bool
  | _, [] => true
  | prev, t :: rest => specAllowed prev t && specChain t rest

/-- Does a status trace follow the state machine of the spec edge by edge? -/
def specOk : List Status → Bool
  | [] => true
  | a :: rest => specChain a rest

/-- Lowercase a string, ASCII letters only (model of Python `str.lower`
on the ASCII names this system handles). -/
def lowerString (s : String) : String := String.mk (s.data.map Char.toLower)

/-- Model of `company_name.replace(' ', '_')`. -/
def replaceSpaces (s : String) : String :=
  String.mk (s.data.map fun c => if c = ' ' then '_' else c)

/-- Extension extraction modelling `os.path.splitext(p)[1].lower()`:
everything from the last dot on, empty when there is no dot or the only
dot leads a hidden-file name. -/
def fileExtension (fn : String) : String :=
  let cs := fn.data
  let extRev := cs.reverse.takeWhile (fun c => c ≠ '.')
  if extRev.length = cs.length then ""
  else if extRev.length + 1 = cs.length then ""
  else lowerString (String.mk ('.' :: extRev.reverse))

def valid_extensions : List String := [".pdf", ".docx", ".txt"]

def supported_languages : List String := ["English", "German", "French", "Spanish"]

/-- Embedding of `validate_inputs` of `src/utils/validators.py`.  `cv_file_exists`
models `os.path.exists(cv_file_path)`. -/
def validate_inputs (job_profile : String) (cv_file_exists : Bool)
    (cv_file_path : String) (cv_language : String) : Bool :=
  if job_profile = "" ∨ (pyStrip job_profile).length < 50 then false
  else if ¬ cv_file_exists then false
  else if ¬ (fileExtension cv_file_path ∈ valid_extensions) then false
  else if ¬ (cv_language ∈ supported_languages) then false
  else true

/-- A `POST /upload-and-process` request: two uploaded files (names and
the text content of the job file) and the language form field. -/
structure UploadReq where
  cv_filename : String
  job_filename : String
  job_text : String
  cv_language : String
deriving DecidableEq, Repr

inductive RouteResp where
  | ok (resp : StatusResp)
  | httpError (code : Nat) (detail : String)
deriving DecidableEq, Repr

def RouteResp.isHttpError : RouteResp → Bool
  | .ok _ => false
  | .httpError _ _ => true

structure UploadOut where
  resp : RouteResp
  store : Store
  sched : Nat
deriving DecidableEq, Repr

/-- Embedding of `upload_and_process` of `src/api/routers/cv_routes.py`: validates
only the two filename extensions, then calls
`agent_service.process_files_async`.  The CONTENT of the job file
(`req.job_text`) is never inspected before scheduling. -/
def upload_and_process (sid : String) (req : UploadReq) (now : Nat)
    (fileFail : Option String) (st : Store) : UploadOut :=
  if req.cv_filename = "" then
    { resp := .httpError 400 "No CV file uploaded", store := st, sched := 0 }
  else if ¬ (fileExtension req.cv_filename ∈ valid_extensions) then
    { resp := .httpError 400 ("Unsupported CV file type: " ++ fileExtension req.cv_filename ++
        ". Supported: .pdf, .docx, .txt"),
      store := st, sched := 0 }
  else if req.job_filename = "" then
    { resp := .httpError 400 "No job profile file uploaded", store := st, sched := 0 }
  else if ¬ (fileExtension req.job_filename ∈ valid_extensions) then
    { resp := .httpError 400 ("Unsupported job profile file type: " ++
        fileExtension req.job_filename ++ ". Supported: .pdf, .docx, .txt"),
      store := st, sched := 0 }
  else
    let o := Testing.process_files_async sid now fileFail st
    { resp := .ok o.resp, store := o.store, sched := o.sched }

/-- Default of `CACHE_DURATION_DAYS` (`timedelta(days=7)` in
`_get_cached_research`); time is measured in whole days here. -/
def cache_duration_days : Nat := 7

/-- A cached company research payload
(`CompanyResearcher._perform_research` return dict). -/
structure ResearchRecord where
  company_name : String
  research_date : Nat
  detailed_research : String
  job_profile_context : String
deriving DecidableEq, Repr

/-- The `data/cache` directory as a map from cache file name to the
JSON record it holds. -/
abbrev ResearchCache := List (String × ResearchRecord)

/-- The cache file name
`f-string{company_name.replace(space, underscore).lower()}_research.json`
both `_get_cached_research` and `_cache_research` compute. -/
def cache_key (companyName : String) : String :=
  lowerString (replaceSpaces companyName) ++ "_research.json"

/-- Model of `job_profile[:500] + "..." if len(job_profile) > 500 else job_profile`. -/
def truncate_profile (jp : String) : String :=
  if jp.length > 500 then jp.take 500 ++ "..." else jp

/-- Embedding of `CompanyResearcher._perform_research`: one research-generation LLM
call (`researchLLM`), stamped with the current time. -/
def perform_research (researchLLM : String → String → String) (now : Nat)
    (companyName jobProfile : String) : ResearchRecord :=
  { company_name := companyName, research_date := now,
    detailed_research := researchLLM companyName jobProfile,
    job_profile_context := truncate_profile jobProfile }

/-- Embedding of `CompanyResearcher._get_cached_research`: present and younger than
the retention window, else treated as absent. -/
def get_cached_research (now : Nat) (companyName : String)
    (cache : ResearchCache) : Option ResearchRecord :=
  match lookupA cache (cache_key companyName) with
  | none => none
  | some r => if now - r.research_date < cache_duration_days then some r else none

/-- Embedding of `CompanyResearcher._cache_research` (write assumed to succeed; a
failed write only logs). -/
def cache_research (companyName : String) (r : ResearchRecord)
    (cache : ResearchCache) : ResearchCache :=
  insertA cache (cache_key companyName) r

structure ResearchOut where
  record : ResearchRecord
  cache : ResearchCache
  generationCalls : Nat
deriving DecidableEq, Repr

/-- Embedding of `CompanyResearcher.research_company`: extract the company name (a
separate short LLM call, `extractLLM`, followed by `.strip()`), check
the cache, otherwise perform and cache fresh research.
`generationCalls` counts `_perform_research` invocations. -/
def research_company (extractLLM : String → String)
    (researchLLM : String → String → String) (now : Nat) (jobProfile : String)
    (cache : ResearchCache) : ResearchOut :=
  let companyName := pyStrip (extractLLM jobProfile)
  match get_cached_research now companyName cache with
  | some r => { record := r, cache := cache, generationCalls := 0 }
  | none =>
      let r := perform_research researchLLM now companyName jobProfile
      { record := r, cache := cache_research companyName r cache, generationCalls := 1 }

/-- Definition of `CV_SECTIONS` from `src/config/settings.py`. -/
def CV_SECTIONS : List String :=
  ["Professional Profile", "Experience", "Education", "Skills", "Projects", "Certifications"]

/-- Scan state of `CVAnalyzer._extract_cv_sections`. -/
structure ExtractAcc where
  current : Option String
  content : List String
  sections : List (String × String)
deriving DecidableEq, Repr

/-- Model of `if current_section and current_content: sections[current_section] = ...`. -/
def flush_section (acc : ExtractAcc) : List (String × String) :=
  match acc.current with
  | some cur =>
      if acc.content = [] then acc.sections
      else insertA acc.sections cur (String.intercalate "\n" acc.content)
  | none => acc.sections

/-- One line of the `_extract_cv_sections` loop.  `matchHeader` models
`re.search` against the six case-insensitive `section_patterns`
(section-detection heuristics are out of scope for the spec): `some name`
means the stripped line matched the pattern of canonical section
`name`, `none` means no pattern matched. -/
def extract_step (matchHeader : String → Option String) (acc : ExtractAcc)
    (rawLine : String) : ExtractAcc :=
  let line := pyStrip rawLine
  if line = "" then acc
  else
    match matchHeader line with
    | some name => { current := some name, content := [], sections := flush_section acc }
    | none =>
        match acc.current with
        | some _ => { acc with content := acc.content ++ [line] }
        | none => acc

/-- Embedding of `CVAnalyzer._extract_cv_sections`: line scan, then the
no-sections-found fallback that files the whole CV under Experience. -/
def extract_cv_sections (matchHeader : String → Option String)
    (cv_content : String) : List (String × String) :=
  let acc := (splitLines cv_content).foldl (extract_step matchHeader)
    { current := none, content := [], sections := [] }
  let sections := flush_section acc
  if sections = [] then [("Experience", cv_content)] else sections

def not_found_placeholder (sectionName : String) : String :=
  "[" ++ sectionName ++ " section not found in CV]"

/-- The case-insensitive key match of `analyze_sections` (`next(s for s
in cv_sections.keys() if s.lower() == section_name.lower())`). -/
def find_section_ci (sections : List (String × String)) (sectionName : String) : Option String :=
  match sections.find? (fun kv => lowerString kv.1 == lowerString sectionName) with
  | some kv => some kv.2
  | none => none

/-- The `section_content` a section is analyzed from: the extracted
text under the (case-insensitively) matching key, or the
`[<section> section not found in CV]` placeholder. -/
def section_input (cv_sections : List (String × String)) (sectionName : String) : String :=
  match find_section_ci cv_sections sectionName with
  | some c => c
  | none => not_found_placeholder sectionName

/-- Embedding of `CVAnalyzer.analyze_sections`: one suggestion per configured
section; `analyzeLLM` models `_analyze_single_section` (prompt assembly
plus one LLM call) applied to section name, section content, job
profile, company data and language. -/
def analyze_sections (matchHeader : String → Option String)
    (analyzeLLM : String → String → String → String → String → String)
    (cv_content job_profile company_data cv_language : String) : List (String × String) :=
  let cv_sections := extract_cv_sections matchHeader cv_content
  CV_SECTIONS.foldl
    (fun acc sectionName =>
      insertA acc sectionName
        (analyzeLLM sectionName (section_input cv_sections sectionName)
          job_profile company_data cv_language))
    []

/-- Status of the session stored under `sid`, if any. -/
def sessionStatus (st : Store) (sid : String) : Option Status :=
  (lookupA st sid).map Session.status

/-- The suggestion text stored for one section of one session
(`active_sessions[sid]["results"]["cv_suggestions"][sectionName]`). -/
def storedSuggestion (st : Store) (sid sectionName : String) : Option String :=
  match lookupA st sid with
  | none => none
  | some s =>
      match s.results with
      | none => none
      | some r => lookupA r.cv_suggestions sectionName

theorem toLower_ne_space (c : Char) (h : c ≠ ' ') : Char.toLower c ≠ ' ' := by
  unfold Char.toLower
  simp only []
  by_cases h2 : c.toNat ≥ 65 ∧ c.toNat ≤ 90
  · rw [if_pos h2]
    intro hcon
    have hv : (c.toNat + 32).isValidChar := by
      refine Or.inl ?_
      omega
    have hofn : (Char.ofNat (c.toNat + 32)).toNat = c.toNat + 32 := by
      rw [Char.ofNat, dif_pos hv]
      simp [Char.ofNatAux, Char.toNat, UInt32.toNat, BitVec.toNat_ofNatLt]
    rw [hcon] at hofn
    have hsp : (' ' : Char).toNat = 32 := by decide
    omega
  · rw [if_neg h2]; exact h

theorem toLower_comm_space (c : Char) :
    Char.toLower (if c = ' ' then '_' else c) =
      (if Char.toLower c = ' ' then '_' else Char.toLower c) := by
  by_cases hc : c = ' '
  · subst hc; decide
  · rw [if_neg hc, if_neg (toLower_ne_space c hc)]

/-- Lowercasing and replacing spaces by underscores commute, so the
cache key computed by the code (replace, then lower) agrees with the
normal form "lowercase, then replace spaces". -/
theorem lower_replace_comm (s : String) :
    lowerString (replaceSpaces s) = replaceSpaces (lowerString s) := by
  show String.mk (List.map Char.toLower (List.map (fun c => if c = ' ' then '_' else c) s.data)) =
    String.mk (List.map (fun c => if c = ' ' then '_' else c) (List.map Char.toLower s.data))
  congr 1
  induction s.data with
  | nil => rfl
  | cons c l ih => simp only [List.map, ih, toLower_comm_space c]

theorem foldl_insertA_nodup {β : Type} (f : String → β) (names : List String)
    (hnod : names.Nodup) :
    ∀ acc : List (String × β), (∀ n ∈ names, lookupA acc n = none) →
      names.foldl (fun a n => insertA a n (f n)) acc = acc ++ names.map (fun n => (n, f n)) := by
  induction names with
  | nil => intro acc _; simp
  | cons n rest ih =>
      intro acc hacc
      have hn : lookupA acc n = none := hacc n (by simp)
      have hnotin : n ∉ rest := (List.nodup_cons.mp hnod).1
      have hrest : ∀ m ∈ rest, lookupA (acc ++ [(n, f n)]) m = none := by
        intro m hm
        have hne : n ≠ m := fun he => hnotin (he ▸ hm)
        have h1 : lookupA acc m = none := hacc m (by simp [hm])
        rw [lookupA_append, h1]
        simp [lookupA, hne]
      calc (n :: rest).foldl (fun a m => insertA a m (f m)) acc
      _ = rest.foldl (fun a m => insertA a m (f m)) (insertA acc n (f n)) := rfl
      _ = rest.foldl (fun a m => insertA a m (f m)) (acc ++ [(n, f n)]) := by
            rw [insertA_of_lookupA_none acc n (f n) hn]
      _ = (acc ++ [(n, f n)]) ++ rest.map (fun m => (m, f m)) :=
            ih (List.nodup_cons.mp hnod).2 _ hrest
      _ = acc ++ (n, f n) :: rest.map (fun m => (m, f m)) := by simp

theorem lookupA_map_self {β : Type} (f : String → β) (names : List String) (name : String)
    (h : name ∈ names) : lookupA (names.map fun n => (n, f n)) name = some (f name) := by
  induction names with
  | nil => cases h
  | cons n rest ih =>
      by_cases he : n = name
      · subst he; simp [lookupA]
      · have hmem : name ∈ rest := by
          rcases List.mem_cons.mp h with h1 | h1
          · exact absurd h1.symm he
          · exact h1
        simp [lookupA, he, ih hmem]

theorem extract_no_match (mh : String → Option String) (lines : List String)
    (h : ∀ l ∈ lines, mh (pyStrip l) = none) :
    lines.foldl (extract_step mh)
      { current := none, content := [], sections := [] } =
      { current := none, content := [], sections := [] } := by
  induction lines with
  | nil => rfl
  | cons l rest ih =>
      have h1 : mh (pyStrip l) = none := h l (by simp)
      have hstep : extract_step mh { current := none, content := [], sections := [] } l =
          { current := none, content := [], sections := [] } := by
        unfold extract_step
        by_cases he : pyStrip l = ""
        · simp [he]
        · simp [he, h1]
      calc (l :: rest).foldl (extract_step mh) { current := none, content := [], sections := [] }
      _ = rest.foldl (extract_step mh)
            (extract_step mh { current := none, content := [], sections := [] } l) := rfl
      _ = rest.foldl (extract_step mh) { current := none, content := [], sections := [] } := by
            rw [hstep]
      _ = { current := none, content := [], sections := [] } :=
            ih (fun m hm => h m (by simp [hm]))

/-- A concrete pipeline result used by the counterexample runs. -/
def demoResults : Results :=
  { company_research := "research about Acme",
    cv_suggestions := [("Profile", "sug1"), ("Experience", "sug2"), ("Skills", "sug3")],
    cv_content := "cv text", job_profile := "job text" }

/-- Store after `create_session` + a successful `process_files_async`:
session `s` is `processing` with its background run in flight. -/
def demoProcessingStore : Store :=
  (execOps "s" [.create 0, .startProcessing 1 none] []).1

def demoProcessingSession : Session :=
  { status := .processing, current_step := "initializing_agent", progress := 20,
    results := none, created_at := 0, final_results := none, error_msg := none }

/-- Store after the background pipeline succeeded: session `s` is
`waiting_approval` holding `demoResults`. -/
def demoWaitingStore : Store :=
  (execOps "s" [.create 0, .startProcessing 1 none, .pipeline (.ok demoResults)] []).1

def demoWaitingSession : Session :=
  { status := .waiting_approval, current_step := "cv_section_approval", progress := 80,
    results := some demoResults, created_at := 0, final_results := none, error_msg := none }

/-- Store after a full successful lifecycle ending in `finalize` at
time 10: session `s` is `completed`. -/
def demoCompletedStore : Store :=
  (execOps "s"
    [.create 0, .startProcessing 1 none, .pipeline (.ok demoResults), .finalize 10 none] []).1

def demoCompletedSession : Session :=
  { status := .completed, current_step := "generating_motivation_letter", progress := 100,
    results := some demoResults, created_at := 0,
    final_results := some (.testing (Testing.make_final_results "s" 10 0)), error_msg := none }

/-- C1: the claim — under any sequence of create / start-processing /
pipeline-completion / interact / finalize / status-read operations, a
status field of the session changes only along the spec §4.1 edges
(monotone path plus `error` from non-terminal states, `completed` and
`error` terminal) — is FALSE: `Testing.finalize_processing` has no
`waiting_approval` precondition, so `create` followed directly by
`finalize` drives the status `initialized → finalizing → completed`,
and `initialized → finalizing` is not an edge of the machine. -/
theorem c1_counterexample :
    ¬ (∀ (sid : String) (ops : List Op), (∀ op ∈ ops, op.isDummy = false) →
        specOk (statusTrace sid ops) = true) := by
  intro h
  have hinst := h "s" [.create 0, .finalize 5 none] (by decide)
  revert hinst
  decide

/-- C1 (amended): the per-operation status assignments the Testing
service actually performs.  `create_session` assigns `initialized`;
`process_files_async` assigns `processing` (preceded by `initialized`
when the session did not yet exist, followed by `error` when file
handling fails) with NO precondition on the current status; the
background pipeline assigns `waiting_approval` or `error`; interactions
and status reads assign nothing; `finalize_processing` assigns
`finalizing` then `completed` (or `error`) from ANY current status; and
`create_dummy_completed_session` assigns `completed` directly.  In
particular `completed` and `error` are not terminal and the edge
relation of the spec is not respected. -/
theorem c1_status_assignments (sid : String) (st : Store) :
    (∀ now, (execOp sid st (.create now)).2 = [.initialized]) ∧
    (∀ now, (execOp sid st (.startProcessing now none)).2 =
      if (lookupA st sid).isNone then [.initialized, .processing] else [.processing]) ∧
    (∀ now e, (execOp sid st (.startProcessing now (some e))).2 =
      (if (lookupA st sid).isNone then [.initialized, .processing] else [.processing])
        ++ [.error]) ∧
    (∀ r, (lookupA st sid).isSome = true →
      (execOp sid st (.pipeline (.ok r))).2 = [.waiting_approval]) ∧
    (∀ e, (lookupA st sid).isSome = true →
      (execOp sid st (.pipeline (.error e))).2 = [.error]) ∧
    (∀ sectionName action mt q, (execOp sid st (.interact sectionName action mt q)).2 = []) ∧
    (∀ now, (lookupA st sid).isSome = true →
      (execOp sid st (.finalize now none)).2 = [.finalizing, .completed]) ∧
    (∀ now e, (lookupA st sid).isSome = true →
      (execOp sid st (.finalize now (some e))).2 = [.finalizing, .error]) ∧
    ((execOp sid st .getStatus).2 = []) ∧
    (∀ now, (execOp sid st (.dummy now)).2 = [.completed]) := by
  refine ⟨fun now => rfl, fun now => ?_, fun now e => ?_, fun r h => ?_, fun e h => ?_,
    fun sectionName action mt q => rfl, fun now h => ?_, fun now e h => ?_, rfl, fun now => rfl⟩
  · by_cases hf : (lookupA st sid).isNone <;>
      simp [execOp, Testing.process_files_async, hf]
  · by_cases hf : (lookupA st sid).isNone <;>
      simp [execOp, Testing.process_files_async, hf]
  · rcases Option.isSome_iff_exists.mp h with ⟨s, hs⟩
    simp [execOp, Testing.process_in_background, hs]
  · rcases Option.isSome_iff_exists.mp h with ⟨s, hs⟩
    simp [execOp, Testing.process_in_background, hs]
  · rcases Option.isSome_iff_exists.mp h with ⟨s, hs⟩
    simp [execOp, Testing.finalize_processing, hs]
  · rcases Option.isSome_iff_exists.mp h with ⟨s, hs⟩
    simp [execOp, Testing.finalize_processing, hs]

/-- C1 witness: the amended theorem evaluated on a store holding one
freshly created session. -/
theorem c1_status_assignments_witness :
    (execOp "s" (Testing.create_session "s" 0 []).2 (.finalize 5 none)).2 =
      [.finalizing, .completed] ∧
    (execOp "s" (Testing.create_session "s" 0 []).2 (.pipeline (.ok demoResults))).2 =
      [.waiting_approval] :=
  ⟨(c1_status_assignments "s" (Testing.create_session "s" 0 []).2).2.2.2.2.2.2.1 5 (by decide),
   (c1_status_assignments "s" (Testing.create_session "s" 0 []).2).2.2.2.1 demoResults (by decide)⟩

/-- C2: the claim — invoking `process_files_async` on a session whose
status is already `processing` returns an error and schedules no second
background run — is FALSE: on the store where session `s` is
`processing` with a run in flight, a second invocation answers with
status `"processing"` (not an error) and starts one more background
thread. -/
theorem c2_counterexample :
    ¬ (∀ (sid : String) (st : Store) (s : Session) (now : Nat) (ff : Option String),
        lookupA st sid = some s → s.status = .processing →
        (Testing.process_files_async sid now ff st).resp.status = "error" ∧
        (Testing.process_files_async sid now ff st).sched = 0) := by
  intro h
  have hinst := h "s" demoProcessingStore demoProcessingSession 2 none (by rfl) (by rfl)
  revert hinst
  decide

/-- C2 (amended): `process_files_async` has no idempotency guard: on
ANY existing session, whatever its status, a successful invocation
answers `"processing"`, schedules one (more) background run, and
resets the session to `processing`. -/
theorem c2_no_idempotency_guard (sid : String) (st : Store) (s : Session) (now : Nat)
    (h : lookupA st sid = some s) :
    (Testing.process_files_async sid now none st).resp.status = "processing" ∧
    (Testing.process_files_async sid now none st).sched = 1 ∧
    lookupA (Testing.process_files_async sid now none st).store sid =
      some { s with
              status := .processing,
              current_step := "initializing_agent",
              progress := 20 } := by
  have hns : (lookupA st sid).isNone = false := by simp [h]
  refine ⟨by simp [Testing.process_files_async, hns], by simp [Testing.process_files_async, hns], ?_⟩
  simp [Testing.process_files_async, hns, lookupA_updateS_self, updateS, h,
    lookupA_insertA_self]

/-- C2 witness: the amended theorem at the concrete in-flight store. -/
theorem c2_no_idempotency_guard_witness :
    (Testing.process_files_async "s" 2 none demoProcessingStore).resp.status = "processing" ∧
    (Testing.process_files_async "s" 2 none demoProcessingStore).sched = 1 ∧
    lookupA (Testing.process_files_async "s" 2 none demoProcessingStore).store "s" =
      some { demoProcessingSession with
              status := .processing,
              current_step := "initializing_agent",
              progress := 20 } :=
  c2_no_idempotency_guard "s" demoProcessingStore demoProcessingSession 2 (by rfl)

/-- A successful `Testing.finalize_processing` on an existing session
returns the freshly assembled final results. -/
theorem finalize_ok_result (sid : String) (now : Nat) (st : Store) (s : Session)
    (h : lookupA st sid = some s) :
    (Testing.finalize_processing sid now none st).result =
      .ok (Testing.make_final_results sid now s.created_at) := by
  simp [Testing.finalize_processing, h]

/-- A successful `Testing.finalize_processing` leaves the session
`completed` with `created_at` (and `results`) untouched. -/
theorem finalize_ok_store (sid : String) (now : Nat) (st : Store) (s : Session)
    (h : lookupA st sid = some s) :
    lookupA (Testing.finalize_processing sid now none st).store sid =
      some { s with
              status := .completed,
              progress := 100,
              current_step := "generating_motivation_letter",
              final_results := some (.testing (Testing.make_final_results sid now s.created_at)) } := by
  simp [Testing.finalize_processing, h, updateS, lookupA_insertA_self]

/-- C3: the claim — a second `finalize_processing` on a session already
`completed` either returns the identical artifact or rejects — is
FALSE for the Testing service: on the completed demo session (first
finalized at time 10) a second call at time 25 succeeds AND returns a
fresh artifact whose `timestamp` and `processing_time` differ from the
stored one. -/
theorem c3_counterexample :
    ¬ (∀ (sid : String) (st : Store) (s : Session) (fr : FinalResults) (now : Nat),
        lookupA st sid = some s → s.status = .completed →
        s.final_results = some (.testing fr) →
        ((Testing.finalize_processing sid now none st).result = .ok fr ∨
          exceptIsError (Testing.finalize_processing sid now none st).result = true)) := by
  intro h
  have hinst := h "s" demoCompletedStore demoCompletedSession
    (Testing.make_final_results "s" 10 0) 25 (by rfl) (by rfl) (by rfl)
  revert hinst
  decide

/-- C3 (amended): the two services implement the two policies
inconsistently.  The Testing service re-finalizes without any guard:
both calls succeed, the letter and suggestion payloads coincide, but
`timestamp` and `processing_time` are recomputed from the wall clock of
each call.  The Backup service rejects any finalize outside
`waiting_approval` (hence any second finalize) with "Session not ready
for finalization", leaving the store untouched. -/
theorem c3_refinalize_behavior :
    (∀ (sid : String) (st : Store) (s : Session) (t1 t2 : Nat),
        lookupA st sid = some s →
        ∃ f1 f2 : FinalResults,
          (Testing.finalize_processing sid t1 none st).result = .ok f1 ∧
          (Testing.finalize_processing sid t2 none
              (Testing.finalize_processing sid t1 none st).store).result = .ok f2 ∧
          f1.motivation_letter = f2.motivation_letter ∧
          f1.cv_suggestions = f2.cv_suggestions ∧
          f1.timestamp = t1 ∧ f2.timestamp = t2 ∧
          f1.processing_time = t1 - s.created_at ∧
          f2.processing_time = t2 - s.created_at) ∧
    (∀ (sid : String) (st : Store) (s : Session) (now : Nat)
        (letterOutcome : Except String String) (saveFail : Option String),
        lookupA st sid = some s → s.status ≠ .waiting_approval →
        (Backup.finalize_processing sid now letterOutcome saveFail st).result =
          Except.error "Session not ready for finalization" ∧
        (Backup.finalize_processing sid now letterOutcome saveFail st).store = st) := by
  constructor
  · intro sid st s t1 t2 h
    have h1 := finalize_ok_result sid t1 st s h
    have hs1 := finalize_ok_store sid t1 st s h
    have h2 := finalize_ok_result sid t2 _ _ hs1
    exact ⟨Testing.make_final_results sid t1 s.created_at,
      Testing.make_final_results sid t2 s.created_at, h1, h2, rfl, rfl, rfl, rfl, rfl, rfl⟩
  · intro sid st s now letterOutcome saveFail h hne
    simp [Backup.finalize_processing, h, hne]

/-- C3 witness: both conjuncts of the amended theorem at the concrete
completed store. -/
theorem c3_refinalize_behavior_witness :
    (∃ f1 f2 : FinalResults,
        (Testing.finalize_processing "s" 30 none demoCompletedStore).result = .ok f1 ∧
        (Testing.finalize_processing "s" 40 none
            (Testing.finalize_processing "s" 30 none demoCompletedStore).store).result = .ok f2 ∧
        f1.motivation_letter = f2.motivation_letter ∧
        f1.cv_suggestions = f2.cv_suggestions ∧
        f1.timestamp = 30 ∧ f2.timestamp = 40 ∧
        f1.processing_time = 30 - demoCompletedSession.created_at ∧
        f2.processing_time = 40 - demoCompletedSession.created_at) ∧
    ((Backup.finalize_processing "s" 50 (.ok "letter") none demoCompletedStore).result =
        Except.error "Session not ready for finalization" ∧
      (Backup.finalize_processing "s" 50 (.ok "letter") none demoCompletedStore).store =
        demoCompletedStore) :=
  ⟨c3_refinalize_behavior.1 "s" demoCompletedStore demoCompletedSession 30 40 (by rfl),
   c3_refinalize_behavior.2 "s" demoCompletedStore demoCompletedSession 50 (.ok "letter") none
     (by rfl) (by decide)⟩

/-- C4: the claim — an `approve` interaction marks the targeted
SectionSuggestion as `approved` (leaving the suggestion text
unchanged) — is FALSE.  Marking a pending suggestion approved would
have to change the stored session record somewhere; instead, on the
waiting demo session, `approve` of the known pending section `Skills`
leaves the entire store byte-for-byte unchanged (in the Backup variant
too), so no `approved` status is recorded anywhere: suggestions are
plain strings with no status field.  The call still reports success. -/
theorem c4_counterexample :
    ¬ (∀ (sid sectionName : String) (st : Store) (s : Session) (r : Results),
        lookupA st sid = some s → s.status = .waiting_approval → s.results = some r →
        (lookupA r.cv_suggestions sectionName).isSome = true →
        (Testing.handle_section_interaction sid sectionName "approve" none none st).store
          ≠ st) := by
  intro h
  exact h "s" "Skills" demoWaitingStore demoWaitingSession demoResults
    (by rfl) (by rfl) (by rfl) (by rfl) (by rfl)

/-- C4 (amended): `approve` succeeds with the confirmation string and
leaves the session — including the stored suggestion text — entirely
unchanged, in both services; because the state is unchanged, a second
`approve` succeeds with the identical response.   No `approved` status
is recorded: suggestion entries are plain strings. -/
theorem c4_approve_is_stateless (sid sectionName : String) (st : Store) (s : Session)
    (h : lookupA st sid = some s) (hw : s.status = .waiting_approval) :
    (Testing.handle_section_interaction sid sectionName "approve" none none st).store = st ∧
    (Testing.handle_section_interaction sid sectionName "approve" none none st).resp =
      .ok sid sectionName "approve" ("Section \x27" ++ sectionName ++ "\x27 approved") ∧
    (Testing.handle_section_interaction sid sectionName "approve" none none
        (Testing.handle_section_interaction sid sectionName "approve" none none st).store) =
      Testing.handle_section_interaction sid sectionName "approve" none none st ∧
    (∀ (r : Results) (llmOutcome : Except String String) (orig : String),
        s.results = some r → lookupA r.cv_suggestions sectionName = some orig →
        (Backup.handle_section_interaction sid sectionName "approve" none none llmOutcome st).store
            = st ∧
        (Backup.handle_section_interaction sid sectionName "approve" none none llmOutcome st).resp
            = .ok sid sectionName "approve" ("Section \x27" ++ sectionName ++ "\x27 approved")) := by
  have hT : Testing.handle_section_interaction sid sectionName "approve" none none st =
      { resp := .ok sid sectionName "approve" ("Section \x27" ++ sectionName ++ "\x27 approved"),
        store := st } := by
    simp [Testing.handle_section_interaction, h, hw]
  refine ⟨by rw [hT], by rw [hT], by rw [hT]; exact hT, ?_⟩
  intro r llmOutcome orig hr horig
  constructor <;> simp [Backup.handle_section_interaction, h, hw, hr, horig]

/-- C4 witness: the amended theorem at the waiting demo session and its
`Skills` section. -/
theorem c4_approve_is_stateless_witness :
    (Testing.handle_section_interaction "s" "Skills" "approve" none none demoWaitingStore).store
        = demoWaitingStore ∧
    (Testing.handle_section_interaction "s" "Skills" "approve" none none demoWaitingStore).resp =
      .ok "s" "Skills" "approve" "Section \x27Skills\x27 approved" ∧
    (Testing.handle_section_interaction "s" "Skills" "approve" none none
        (Testing.handle_section_interaction "s" "Skills" "approve" none none
          demoWaitingStore).store) =
      Testing.handle_section_interaction "s" "Skills" "approve" none none demoWaitingStore ∧
    (∀ (r : Results) (llmOutcome : Except String String) (orig : String),
        demoWaitingSession.results = some r →
        lookupA r.cv_suggestions "Skills" = some orig →
        (Backup.handle_section_interaction "s" "Skills" "approve" none none llmOutcome
            demoWaitingStore).store = demoWaitingStore ∧
        (Backup.handle_section_interaction "s" "Skills" "approve" none none llmOutcome
            demoWaitingStore).resp =
          .ok "s" "Skills" "approve" "Section \x27Skills\x27 approved") :=
  c4_approve_is_stateless "s" "Skills" demoWaitingStore demoWaitingSession (by rfl) (by rfl)

/-- C5: the claim — when the LLM call behind a `modify` interaction
fails, the stored suggestion is left unchanged, the failure is surfaced
as an error, and the session stays `waiting_approval` — is FALSE: on
the waiting demo session, a `modify` of `Skills` whose LLM call raises
`"LLM timeout"` OVERWRITES the stored suggestion with the error text
returned by `_modify_suggestions` and reports success. -/
theorem c5_counterexample :
    ¬ (∀ (sid sectionName : String) (st : Store) (s : Session) (r : Results)
        (orig : String) (mt : Option String) (e : String),
        lookupA st sid = some s → s.status = .waiting_approval → s.results = some r →
        lookupA r.cv_suggestions sectionName = some orig → pyFalsy mt = false →
        storedSuggestion
            (Backup.handle_section_interaction sid sectionName "modify" mt none
              (.error e) st).store sid sectionName = some orig ∧
        (Backup.handle_section_interaction sid sectionName "modify" mt none
            (.error e) st).resp.isError = true ∧
        sessionStatus
            (Backup.handle_section_interaction sid sectionName "modify" mt none
              (.error e) st).store sid = some .waiting_approval) := by
  intro h
  have hinst := h "s" "Skills" demoWaitingStore demoWaitingSession demoResults "sug3"
    (some "make it punchier") "LLM timeout" (by rfl) (by rfl) (by rfl) (by rfl) (by rfl)
  revert hinst
  decide

/-- C5 (amended): on LLM failure `e` during `modify`, the Backup
service stores the catch-all text of `_modify_suggestions`,
"Error generating modifications: e. Please try again." as the NEW
suggestion for the section and returns it inside a SUCCESS response;
the session does remain `waiting_approval`. -/
theorem c5_modify_failure_stores_error_text (sid sectionName : String) (st : Store)
    (s : Session) (r : Results) (orig : String) (mt : Option String) (e : String)
    (h : lookupA st sid = some s) (hw : s.status = .waiting_approval)
    (hr : s.results = some r) (horig : lookupA r.cv_suggestions sectionName = some orig)
    (hmt : pyFalsy mt = false) :
    (Backup.handle_section_interaction sid sectionName "modify" mt none (.error e) st).resp =
      .ok sid sectionName "modify"
        ("Error generating modifications: " ++ e ++ ". Please try again.") ∧
    storedSuggestion
        (Backup.handle_section_interaction sid sectionName "modify" mt none
          (.error e) st).store sid sectionName =
      some ("Error generating modifications: " ++ e ++ ". Please try again.") ∧
    sessionStatus
        (Backup.handle_section_interaction sid sectionName "modify" mt none
          (.error e) st).store sid = some .waiting_approval := by
  have hB : Backup.handle_section_interaction sid sectionName "modify" mt none (.error e) st =
      { resp := .ok sid sectionName "modify"
          ("Error generating modifications: " ++ e ++ ". Please try again."),
        store := updateS st sid fun x =>
          { x with
             results := some
               { r with
                  cv_suggestions := insertA r.cv_suggestions sectionName
                    ("Error generating modifications: " ++ e ++ ". Please try again.") } } } := by
    simp [Backup.handle_section_interaction, h, hw, hr, horig, hmt,
      InteractiveApproval.modify_suggestions]
  rw [hB]
  refine ⟨rfl, ?_, ?_⟩
  · unfold storedSuggestion
    rw [lookupA_updateS_self, h]
    simp [lookupA_insertA_self]
  · unfold sessionStatus
    rw [lookupA_updateS_self, h]
    simp [hw]

/-- C5 witness: the amended theorem on the waiting demo session. -/
theorem c5_modify_failure_stores_error_text_witness :
    (Backup.handle_section_interaction "s" "Skills" "modify" (some "make it punchier") none
        (.error "LLM timeout") demoWaitingStore).resp =
      .ok "s" "Skills" "modify"
        "Error generating modifications: LLM timeout. Please try again." ∧
    storedSuggestion
        (Backup.handle_section_interaction "s" "Skills" "modify" (some "make it punchier") none
          (.error "LLM timeout") demoWaitingStore).store "s" "Skills" =
      some "Error generating modifications: LLM timeout. Please try again." ∧
    sessionStatus
        (Backup.handle_section_interaction "s" "Skills" "modify" (some "make it punchier") none
          (.error "LLM timeout") demoWaitingStore).store "s" = some .waiting_approval :=
  c5_modify_failure_stores_error_text "s" "Skills" demoWaitingStore demoWaitingSession
    demoResults "sug3" (some "make it punchier") "LLM timeout"
    (by rfl) (by rfl) (by rfl) (by rfl) (by rfl)

/-- C6: the claim — an interaction on a `waiting_approval` session
whose `section_name` is not a key of the `cv_suggestions` of that session is
rejected with a not-found error and changes nothing — is FALSE for the
service wired to the routes: the Testing service never consults
`cv_suggestions`, so approving the unknown section `Nonexistent`
succeeds. -/
theorem c6_counterexample :
    ¬ (∀ (sid sectionName action : String) (st : Store) (s : Session) (r : Results)
        (mt q : Option String),
        lookupA st sid = some s → s.status = .waiting_approval → s.results = some r →
        lookupA r.cv_suggestions sectionName = none →
        (Testing.handle_section_interaction sid sectionName action mt q st).resp.isError = true ∧
        (Testing.handle_section_interaction sid sectionName action mt q st).store = st) := by
  intro h
  have hinst := h "s" "Nonexistent" "approve" demoWaitingStore demoWaitingSession demoResults
    none none (by rfl) (by rfl) (by rfl) (by rfl)
  revert hinst
  decide

/-- C6 (amended): the Backup service does implement the claim — an
unknown section name is rejected with `Section <name> not found` and
the store is unchanged — but the Testing service wired to the routes
performs no section-name validation at all: on a `waiting_approval`
session, `approve` of ANY name (known to `cv_suggestions` or not)
succeeds without touching state. -/
theorem c6_section_lookup_by_service (sid sectionName : String) (st : Store) (s : Session)
    (r : Results) (h : lookupA st sid = some s) (hw : s.status = .waiting_approval)
    (hr : s.results = some r)
    (hmiss : lookupA r.cv_suggestions sectionName = none) :
    (∀ (action : String) (mt q : Option String) (llmOutcome : Except String String),
        (Backup.handle_section_interaction sid sectionName action mt q llmOutcome st).resp =
          .error ("Section \x27" ++ sectionName ++ "\x27 not found") ∧
        (Backup.handle_section_interaction sid sectionName action mt q llmOutcome st).store
          = st) ∧
    ((Testing.handle_section_interaction sid sectionName "approve" none none st).resp =
        .ok sid sectionName "approve" ("Section \x27" ++ sectionName ++ "\x27 approved") ∧
     (Testing.handle_section_interaction sid sectionName "approve" none none st).store = st) := by
  constructor
  · intro action mt q llmOutcome
    constructor <;> simp [Backup.handle_section_interaction, h, hw, hr, hmiss]
  · constructor <;> simp [Testing.handle_section_interaction, h, hw]

/-- C6 witness: the amended theorem at the waiting demo session and the
unknown section `Nonexistent`. -/
theorem c6_section_lookup_by_service_witness :
    (∀ (action : String) (mt q : Option String) (llmOutcome : Except String String),
        (Backup.handle_section_interaction "s" "Nonexistent" action mt q llmOutcome
            demoWaitingStore).resp = .error "Section \x27Nonexistent\x27 not found" ∧
        (Backup.handle_section_interaction "s" "Nonexistent" action mt q llmOutcome
            demoWaitingStore).store = demoWaitingStore) ∧
    ((Testing.handle_section_interaction "s" "Nonexistent" "approve" none none
        demoWaitingStore).resp =
          .ok "s" "Nonexistent" "approve" "Section \x27Nonexistent\x27 approved" ∧
     (Testing.handle_section_interaction "s" "Nonexistent" "approve" none none
        demoWaitingStore).store = demoWaitingStore) :=
  c6_section_lookup_by_service "s" "Nonexistent" demoWaitingStore demoWaitingSession
    demoResults (by rfl) (by rfl) (by rfl) (by rfl)

/-- A `process_files_async` whose file handling succeeds always
schedules exactly one background run. -/
theorem process_files_async_ok_sched (sid : String) (now : Nat) (st : Store) :
    (Testing.process_files_async sid now none st).sched = 1 := by
  unfold Testing.process_files_async
  cases hs : lookupA st sid <;> simp [hs]

/-- A `process_files_async` whose file handling succeeds always leaves
the session in `processing`, whatever state (or absence) it started
from. -/
theorem process_files_async_ok_status (sid : String) (now : Nat) (st : Store) :
    sessionStatus (Testing.process_files_async sid now none st).store sid =
      some .processing := by
  unfold Testing.process_files_async sessionStatus
  cases hs : lookupA st sid with
  | none =>
      simp [hs, lookupA_updateS_self, Testing.create_session, lookupA_insertA_self]
  | some s =>
      simp [hs, lookupA_updateS_self]

/-- C7: the claim — a submission whose job-description text is shorter
than 50 characters is rejected by the processing entry point before any
background work is scheduled, and the session does not enter
`processing` — is FALSE: `upload_and_process` validates only filename
extensions and never reads the job text, so a 10-character job
description sails through, one background run is scheduled, and the
session becomes `processing`. -/
theorem c7_counterexample :
    ¬ (∀ (sid : String) (req : UploadReq) (now : Nat) (ff : Option String) (st : Store),
        (pyStrip req.job_text).length < 50 →
        (upload_and_process sid req now ff st).resp.isHttpError = true ∧
        (upload_and_process sid req now ff st).sched = 0 ∧
        sessionStatus (upload_and_process sid req now ff st).store sid ≠ some .processing) := by
  intro h
  have hinst := h "s"
    { cv_filename := "cv.txt", job_filename := "job.txt",
      job_text := "short text", cv_language := "English" } 0 none [] (by decide)
  revert hinst
  decide

/-- C7 (amended): `validate_inputs` does reject job text under 50
characters, but the upload route never calls it: the outcome of the route is
completely independent of the job text, and with well-formed `.txt`
filenames any job text — of any length — is accepted, one background
run is scheduled, and the session enters `processing`. -/
theorem c7_validation_not_wired :
    (∀ (jp : String) (cv_file_exists : Bool) (cv_file_path cv_language : String),
        (pyStrip jp).length < 50 →
        validate_inputs jp cv_file_exists cv_file_path cv_language = false) ∧
    (∀ (sid cvf jbf t t2 lang : String) (now : Nat) (ff : Option String) (st : Store),
        upload_and_process sid
            { cv_filename := cvf, job_filename := jbf, job_text := t, cv_language := lang }
            now ff st =
          upload_and_process sid
            { cv_filename := cvf, job_filename := jbf, job_text := t2, cv_language := lang }
            now ff st) ∧
    (∀ (sid t lang : String) (now : Nat) (st : Store),
        (upload_and_process sid
            { cv_filename := "cv.txt", job_filename := "job.txt", job_text := t,
              cv_language := lang } now none st).resp.isHttpError = false ∧
        (upload_and_process sid
            { cv_filename := "cv.txt", job_filename := "job.txt", job_text := t,
              cv_language := lang } now none st).sched = 1 ∧
        sessionStatus (upload_and_process sid
            { cv_filename := "cv.txt", job_filename := "job.txt", job_text := t,
              cv_language := lang } now none st).store sid = some .processing) := by
  refine ⟨?_, fun sid cvf jbf t t2 lang now ff st => rfl, ?_⟩
  · intro jp cv_file_exists cv_file_path cv_language hlen
    unfold validate_inputs
    rw [if_pos (Or.inr hlen)]
  · intro sid t lang now st
    have hroute : upload_and_process sid
        { cv_filename := "cv.txt", job_filename := "job.txt", job_text := t,
          cv_language := lang } now none st =
        { resp := .ok (Testing.process_files_async sid now none st).resp,
          store := (Testing.process_files_async sid now none st).store,
          sched := (Testing.process_files_async sid now none st).sched } := rfl
    rw [hroute]
    exact ⟨rfl, process_files_async_ok_sched sid now st,
      process_files_async_ok_status sid now st⟩

/-- C7 witness: both live parts of the amended theorem at a concrete
10-character job description. -/
theorem c7_validation_not_wired_witness :
    validate_inputs "short text" true "cv.txt" "English" = false ∧
    (upload_and_process "s"
        { cv_filename := "cv.txt", job_filename := "job.txt", job_text := "short text",
          cv_language := "English" } 0 none []).sched = 1 :=
  ⟨c7_validation_not_wired.1 "short text" true "cv.txt" "English" (by decide),
   (c7_validation_not_wired.2.2 "s" "short text" "English" 0 []).2.1⟩

/-- Behavior of `research_company` when the cache holds a fresh record: returns it,
no generation call. -/
theorem research_company_cached (extractLLM : String → String)
    (researchLLM : String → String → String) (now : Nat) (jp : String)
    (cache : ResearchCache) (r : ResearchRecord)
    (h : get_cached_research now (pyStrip (extractLLM jp)) cache = some r) :
    research_company extractLLM researchLLM now jp cache =
      { record := r, cache := cache, generationCalls := 0 } := by
  simp only [research_company]
  rw [h]

/-- Behavior of `research_company` on a cache miss: one generation call, record
stored under the normalized key. -/
theorem research_company_uncached (extractLLM : String → String)
    (researchLLM : String → String → String) (now : Nat) (jp : String)
    (cache : ResearchCache)
    (h : get_cached_research now (pyStrip (extractLLM jp)) cache = none) :
    research_company extractLLM researchLLM now jp cache =
      { record := perform_research researchLLM now (pyStrip (extractLLM jp)) jp,
        cache := cache_research (pyStrip (extractLLM jp))
          (perform_research researchLLM now (pyStrip (extractLLM jp)) jp) cache,
        generationCalls := 1 } := by
  simp only [research_company]
  rw [h]

/-- C8: within the 7-day retention window a second research request for
the same job profile returns the cached record with NO further
research-generation call (exactly one across both requests); once the
window has expired, the second request performs a fresh generation call
and overwrites the cache entry with the new record. -/
theorem c8_cache_window (extractLLM : String → String)
    (researchLLM : String → String → String) (jp : String) (cache : ResearchCache)
    (t1 t2 : Nat)
    (habsent : lookupA cache (cache_key (pyStrip (extractLLM jp))) = none) :
    (research_company extractLLM researchLLM t1 jp cache).generationCalls = 1 ∧
    (t2 - t1 < cache_duration_days →
      (research_company extractLLM researchLLM t2 jp
          (research_company extractLLM researchLLM t1 jp cache).cache).record =
        (research_company extractLLM researchLLM t1 jp cache).record ∧
      (research_company extractLLM researchLLM t2 jp
          (research_company extractLLM researchLLM t1 jp cache).cache).generationCalls = 0) ∧
    (cache_duration_days ≤ t2 - t1 →
      (research_company extractLLM researchLLM t2 jp
          (research_company extractLLM researchLLM t1 jp cache).cache).generationCalls = 1 ∧
      lookupA (research_company extractLLM researchLLM t2 jp
            (research_company extractLLM researchLLM t1 jp cache).cache).cache
          (cache_key (pyStrip (extractLLM jp))) =
        some (perform_research researchLLM t2 (pyStrip (extractLLM jp)) jp)) := by
  have hget1 : get_cached_research t1 (pyStrip (extractLLM jp)) cache = none := by
    unfold get_cached_research
    rw [habsent]
  have ho1 := research_company_uncached extractLLM researchLLM t1 jp cache hget1
  have hlook : lookupA (cache_research (pyStrip (extractLLM jp))
        (perform_research researchLLM t1 (pyStrip (extractLLM jp)) jp) cache)
        (cache_key (pyStrip (extractLLM jp))) =
      some (perform_research researchLLM t1 (pyStrip (extractLLM jp)) jp) := by
    unfold cache_research
    exact lookupA_insertA_self _ _ _
  refine ⟨by rw [ho1], ?_, ?_⟩
  · intro hlt
    have hget2 : get_cached_research t2 (pyStrip (extractLLM jp))
        (cache_research (pyStrip (extractLLM jp))
          (perform_research researchLLM t1 (pyStrip (extractLLM jp)) jp) cache) =
        some (perform_research researchLLM t1 (pyStrip (extractLLM jp)) jp) := by
      unfold get_cached_research
      rw [hlook]
      simp [perform_research, hlt]
    have ho2 := research_company_cached extractLLM researchLLM t2 jp
      (cache_research (pyStrip (extractLLM jp))
        (perform_research researchLLM t1 (pyStrip (extractLLM jp)) jp) cache)
      (perform_research researchLLM t1 (pyStrip (extractLLM jp)) jp) hget2
    rw [ho1, ho2]
    exact ⟨rfl, rfl⟩
  · intro hge
    have hnlt : ¬ (t2 - t1 < cache_duration_days) := by omega
    have hget2 : get_cached_research t2 (pyStrip (extractLLM jp))
        (cache_research (pyStrip (extractLLM jp))
          (perform_research researchLLM t1 (pyStrip (extractLLM jp)) jp) cache) = none := by
      unfold get_cached_research
      rw [hlook]
      simp [perform_research, hnlt]
    have ho2 := research_company_uncached extractLLM researchLLM t2 jp
      (cache_research (pyStrip (extractLLM jp))
        (perform_research researchLLM t1 (pyStrip (extractLLM jp)) jp) cache) hget2
    rw [ho1, ho2]
    refine ⟨rfl, ?_⟩
    unfold cache_research
    exact lookupA_insertA_self _ _ _

/-- C8 witness: concrete oracles, research at time 0, re-requests at
times 3 (cached, no new generation) and 9 (expired, fresh generation). -/
theorem c8_cache_window_witness :
    (research_company (fun _ => "Acme Corp") (fun n _ => "facts about " ++ n) 0 "jobtext"
        []).generationCalls = 1 ∧
    ((research_company (fun _ => "Acme Corp") (fun n _ => "facts about " ++ n) 3 "jobtext"
        (research_company (fun _ => "Acme Corp") (fun n _ => "facts about " ++ n) 0 "jobtext"
          []).cache).generationCalls = 0 ∧
     (research_company (fun _ => "Acme Corp") (fun n _ => "facts about " ++ n) 9 "jobtext"
        (research_company (fun _ => "Acme Corp") (fun n _ => "facts about " ++ n) 0 "jobtext"
          []).cache).generationCalls = 1) := by
  have h := c8_cache_window (fun _ => "Acme Corp") (fun n _ => "facts about " ++ n)
    "jobtext" [] 0 3 (by rfl)
  have h9 := c8_cache_window (fun _ => "Acme Corp") (fun n _ => "facts about " ++ n)
    "jobtext" [] 0 9 (by rfl)
  exact ⟨h.1, (h.2.1 (by decide)).2, (h9.2.2 (by decide)).1⟩

/-- A concrete cached research payload for the C9 witness. -/
def demoResearchRecord : ResearchRecord :=
  { company_name := "Acme Corp", research_date := 0,
    detailed_research := "facts about Acme Corp", job_profile_context := "jobtext" }

/-- C9: two company names that agree after lowercasing and replacing
spaces with underscores produce the same cache file name, so a record
cached under one name is returned — within the retention window — for
a lookup using the other name. -/
theorem c9_normalized_names_share_cache_entry (a b : String) (r : ResearchRecord)
    (cache : ResearchCache) (now : Nat)
    (hnorm : replaceSpaces (lowerString a) = replaceSpaces (lowerString b))
    (hfresh : now - r.research_date < cache_duration_days) :
    cache_key a = cache_key b ∧
    get_cached_research now b (cache_research a r cache) = some r := by
  have hkey : cache_key a = cache_key b := by
    unfold cache_key
    rw [lower_replace_comm a, lower_replace_comm b, hnorm]
  refine ⟨hkey, ?_⟩
  unfold get_cached_research cache_research
  rw [← hkey, lookupA_insertA_self]
  simp [hfresh]

/-- C9 witness: `Acme Corp` and `ACME corp` share the cache entry
`acme_corp_research.json`. -/
theorem c9_normalized_names_share_cache_entry_witness :
    cache_key "Acme Corp" = cache_key "ACME corp" ∧
    get_cached_research 3 "ACME corp" (cache_research "Acme Corp" demoResearchRecord []) =
      some demoResearchRecord :=
  c9_normalized_names_share_cache_entry "Acme Corp" "ACME corp" demoResearchRecord [] 3
    (by decide) (by decide)

/-- C10: for every CV text, `analyze_sections` returns a map whose key
sequence is exactly the six configured `CV_SECTIONS`; a configured
section the extractor did not detect is analyzed from the
`[<section> section not found in CV]` placeholder rather than omitted;
and a CV in which no line matches any section-header pattern has its
entire content filed as the Experience section.  Quantified over every
header matcher, hence independent of the regex heuristics. -/
theorem c10_analyze_sections_shape
    (matchHeader : String → Option String)
    (analyzeLLM : String → String → String → String → String → String)
    (cv job cd lang : String) :
    (analyze_sections matchHeader analyzeLLM cv job cd lang).map Prod.fst = CV_SECTIONS ∧
    (∀ sectionName ∈ CV_SECTIONS,
        find_section_ci (extract_cv_sections matchHeader cv) sectionName = none →
        lookupA (analyze_sections matchHeader analyzeLLM cv job cd lang) sectionName =
          some (analyzeLLM sectionName (not_found_placeholder sectionName) job cd lang)) ∧
    ((∀ line ∈ splitLines cv, matchHeader (pyStrip line) = none) →
        extract_cv_sections matchHeader cv = [("Experience", cv)]) := by
  have hfold : analyze_sections matchHeader analyzeLLM cv job cd lang =
      CV_SECTIONS.map (fun n => (n,
        analyzeLLM n (section_input (extract_cv_sections matchHeader cv) n) job cd lang)) := by
    unfold analyze_sections
    have := foldl_insertA_nodup
      (fun n => analyzeLLM n (section_input (extract_cv_sections matchHeader cv) n) job cd lang)
      CV_SECTIONS (by decide) [] (fun n _ => rfl)
    simpa using this
  refine ⟨?_, ?_, ?_⟩
  · rw [hfold]
    rfl
  · intro sectionName hmem hnone
    rw [hfold, lookupA_map_self
      (fun n => analyzeLLM n (section_input (extract_cv_sections matchHeader cv) n) job cd lang)
      CV_SECTIONS sectionName hmem]
    unfold section_input
    rw [hnone]
  · intro hno
    unfold extract_cv_sections
    rw [extract_no_match matchHeader (splitLines cv) hno]
    rfl

/-- C10 witness: a header-free CV.  All six keys appear, `Skills` is
analyzed from its placeholder, and the whole text lands under
Experience. -/
theorem c10_analyze_sections_shape_witness :
    (analyze_sections (fun _ => none) (fun _ c _ _ _ => c)
        "hello world" "jp" "cd" "en").map Prod.fst = CV_SECTIONS ∧
    lookupA (analyze_sections (fun _ => none) (fun _ c _ _ _ => c)
        "hello world" "jp" "cd" "en") "Skills" = some (not_found_placeholder "Skills") ∧
    extract_cv_sections (fun _ => none) "hello world" = [("Experience", "hello world")] :=
  ⟨(c10_analyze_sections_shape (fun _ => none) (fun _ c _ _ _ => c) "hello world" "jp" "cd" "en").1,
   (c10_analyze_sections_shape (fun _ => none) (fun _ c _ _ _ => c)
     "hello world" "jp" "cd" "en").2.1 "Skills" (by decide) (by decide),
   (c10_analyze_sections_shape (fun _ => none) (fun _ c _ _ _ => c)
     "hello world" "jp" "cd" "en").2.2 (fun l _ => rfl)⟩

end ApplyJobAI
